import Mathlib

/-!
Shallow embedding of the Wolves-Pipeline repository.

Sources embedded:
* src/nba-twolves-pipeline/wolves_extractor.py — functions fetch_games,
  fetch_boxscores and main;
* src/dags/wolves_pipeline.py — the per-file stage-and-copy loop of the
  extract_and_load_data task (lines 143-196).

A pandas DataFrame row is modelled as an association list from column name
to cell value (all cell values rendered as strings); a DataFrame is a list
of rows.  DataFrame.rename maps each column name through the rename map and
keeps unmapped columns unchanged; column assignment (df[c] = v) overwrites
an existing column or appends a new one.  Upstream endpoint calls, sleeps,
CSV writes and warehouse PUT/COPY statements are recorded as events in a
trace; a Python exception escaping a modelled block is an Except.error.
-/

namespace Wolves

/-- A DataFrame row: ordered (column, value) pairs. -/
abbrev Row : Type := List (String × String)

/-- A DataFrame: an ordered list of rows. -/
abbrev Frame : Type := List Row

/-- Observable effects of the pipeline, in program order. -/
inductive Ev : Type
  /-- The TeamGameLog endpoint call in fetch_games. -/
  | callGameLog : Ev
  /-- The BoxScoreTraditionalV2 endpoint call for one game id. -/
  | call (gid : String) : Ev
  /-- time.sleep, duration in milliseconds. -/
  | sleep (ms : Nat) : Ev
  /-- A DataFrame.to_csv attempt; ok is false when it raises. -/
  | write (file : String) (ok : Bool) : Ev
  /-- The PUT ... @CSV_STAGE statement for one csv file. -/
  | put (file : String) : Ev
  /-- The COPY INTO statement for one target table. -/
  | copyInto (table : String) : Ev
deriving DecidableEq

/-- Column rename map of fetch_games (wolves_extractor.py lines 44-57). -/
def parentRenameMap : List (String × String) :=
  [("Game_ID", "game_id"), ("GAME_DATE", "game_date"), ("MATCHUP", "matchup"),
   ("WL", "result"), ("W", "wins"), ("L", "losses"), ("PTS", "team_points"),
   ("FG_PCT", "team_fg_pct"), ("FT_PCT", "team_ft_pct"), ("REB", "team_rebounds"),
   ("AST", "team_assists"), ("TOV", "team_turnovers")]

/-- Column rename map of fetch_boxscores (wolves_extractor.py lines 106-129). -/
def childRenameMap : List (String × String) :=
  [("PLAYER_ID", "player_id"), ("PLAYER_NAME", "player_name"),
   ("TEAM_ID", "team_id"), ("TEAM_ABBREVIATION", "team_abbr"),
   ("MIN", "minutes"), ("PTS", "points"), ("FGM", "fg_made"),
   ("FGA", "fg_attempts"), ("FG_PCT", "fg_pct"), ("FG3M", "fg3_made"),
   ("FG3A", "fg3_attempts"), ("FG3_PCT", "fg3_pct"), ("FTM", "ft_made"),
   ("FTA", "ft_attempts"), ("FT_PCT", "ft_pct"), ("OREB", "offensive_rebounds"),
   ("DREB", "defensive_rebounds"), ("REB", "total_rebounds"),
   ("AST", "assists"), ("STL", "steals"), ("BLK", "blocks"),
   ("TO", "turnovers")]

/-- Column assignment df[c] = v on one row: overwrite the column where it
exists, append it otherwise. -/
def setCol (c v : String) (r : Row) : Row :=
  if r.any (fun p => p.1 = c) then
    r.map (fun p => if p.1 = c then (c, v) else p)
  else
    r ++ [(c, v)]

/-- DataFrame.rename on one row: each column name is sent through the map,
names not in the map are kept. -/
def renameRow (m : List (String × String)) (r : Row) : Row :=
  r.map (fun p => ((List.lookup p.1 m).getD p.1, p.2))

/-- DataFrame.rename on a whole frame. -/
def renameFrame (m : List (String × String)) (f : Frame) : Frame :=
  f.map (renameRow m)

/-- player_stats[game_id] = game_id applied to a fetched box-score frame. -/
def tagFrame (gid : String) (f : Frame) : Frame :=
  f.map (setCol "game_id" gid)

/-- fetch_games (wolves_extractor.py lines 24-62).  The world supplies the
outcome of the TeamGameLog endpoint: some raw frame on success, none when
the call or parsing raises.  The try/except catches the exception and
returns an empty frame; on success the rename map is applied.  Exactly one
endpoint call is issued either way (no retry). -/
def fetch_games (res : Option Frame) : List Ev × Frame :=
  match res with
  | some df => ([Ev.callGameLog], renameFrame parentRenameMap df)
  | none => ([Ev.callGameLog], [])

/-- The body of the for-loop of fetch_boxscores (wolves_extractor.py lines
79-98), recursing over the remaining game ids.  o gives each per-id
endpoint outcome (none = the call raises), n is the total number of ids and
i the current index.  On success the frame is tagged with its game id and
appended, then time.sleep(0.6) runs when i < n - 1; on failure the except
clause skips both the append and the sleep and the loop continues. -/
def fetchLoop (o : String → Option Frame) (n : Nat) : Nat → List String → List Ev × List Frame
  | _, [] => ([], [])
  | i, gid :: rest =>
    let acc := fetchLoop o n (i + 1) rest
    match o gid with
    | some df =>
      if i < n - 1 then
        (Ev.call gid :: Ev.sleep 600 :: acc.1, tagFrame gid df :: acc.2)
      else
        (Ev.call gid :: acc.1, tagFrame gid df :: acc.2)
    | none => (Ev.call gid :: acc.1, acc.2)

/-- fetch_boxscores (wolves_extractor.py lines 65-134): run the loop, then
concatenate the collected per-game frames and apply the child rename map;
when nothing was collected, return an empty frame. -/
def fetch_boxscores (o : String → Option Frame) (gids : List String) : List Ev × Frame :=
  let acc := fetchLoop o gids.length 0 gids
  match acc.2 with
  | [] => (acc.1, [])
  | f :: fs => (acc.1, renameFrame childRenameMap (List.flatten (f :: fs)))

/-- The game id a Call event carries, if any. -/
def callId : Ev → Option String
  | Ev.call gid => some gid
  | _ => none

/-- Rate-limit compliance of a trace: between any two box-score call events
a sleep of at least 600 ms occurs.  The flag records whether the next call
is currently allowed (initially yes; after a call, only once a sleep of at
least 600 ms has been seen). -/
def callsSpacedAux : List Ev → Bool → Bool
  | [], _ => true
  | Ev.call _ :: t, ok => ok && callsSpacedAux t false
  | Ev.sleep ms :: t, ok => callsSpacedAux t (ok || decide (600 ≤ ms))
  | _ :: t, ok => callsSpacedAux t ok

/-- A trace respects the minimum inter-call interval. -/
def callsSpaced (t : List Ev) : Bool :=
  callsSpacedAux t true

/-- games_df[game_id].tolist() — one value per row. -/
def gameIds (f : Frame) : List String :=
  f.map (fun r => (List.lookup "game_id" r).getD "")

/-- The world a run of wolves_extractor.py main observes: the TeamGameLog
outcome, the per-game BoxScoreTraditionalV2 outcomes, and whether mkdir and
each to_csv call succeed (false = the call raises). -/
structure World : Type where
  gamesResult : Option Frame
  box : String → Option Frame
  mkdirOk : Bool
  writeGamesOk : Bool
  writeStatsOk : Bool

/-- main (wolves_extractor.py lines 137-197).  Empty games frame: early
return.  Empty player-stats frame: early return.  mkdir failure is caught
and returns.  Each to_csv sits in its own try/except, so a write failure is
caught, logged and execution continues; main never raises, which the
Except.ok result records. -/
def main (w : World) : List Ev × Except String Unit :=
  let gf := fetch_games w.gamesResult
  if gf.2.isEmpty then (gf.1, Except.ok ())
  else
    let bf := fetch_boxscores w.box (gameIds gf.2)
    if bf.2.isEmpty then (gf.1 ++ bf.1, Except.ok ())
    else if w.mkdirOk then
      (gf.1 ++ bf.1 ++ [Ev.write "games.csv" w.writeGamesOk,
        Ev.write "player_stats.csv" w.writeStatsOk], Except.ok ())
    else (gf.1 ++ bf.1, Except.ok ())

/-- The world the extract_and_load_data stage-and-copy loop observes:
per csv file name, whether it exists on disk and with how many rows, and
whether its PUT and COPY statements succeed (false = the Snowflake call
raises).  memRows records, per file name, the size the in-memory dataset
had when the extractor wrote the file; the loader runs in a separate
process and never reads it. -/
structure LoadWorld : Type where
  fileRows : String → Option Nat
  putOkFor : String → Bool
  copyOkFor : String → Bool
  memRows : String → Nat

/-- One iteration of the per-file loop of extract_and_load_data
(wolves_pipeline.py lines 149-184): check the csv file exists (raising an
AirflowException naming it when missing), execute PUT, then COPY INTO the
mapped table.  A failing statement raises out of the iteration. -/
def processFile (w : LoadWorld) (file table : String) : List Ev × Except String Unit :=
  match w.fileRows file with
  | none => ([], Except.error ("Expected CSV file not found: " ++ file))
  | some _ =>
    if w.putOkFor file then
      if w.copyOkFor file then
        ([Ev.put file, Ev.copyInto table], Except.ok ())
      else
        ([Ev.put file, Ev.copyInto table], Except.error ("Snowflake error: COPY " ++ table))
    else
      ([Ev.put file], Except.error ("Snowflake error: PUT " ++ file))

/-- The whole per-file loop (wolves_pipeline.py lines 143-184): games first,
then player_stats, inside one try block, so an exception raised while
processing games aborts the task before player_stats is touched. -/
def loadFiles (w : LoadWorld) : List Ev × Except String Unit :=
  match processFile w "games" "GAMES" with
  | (e1, Except.ok _) =>
    let r2 := processFile w "player_stats" "PLAYER_STATS"
    (e1 ++ r2.1, r2.2)
  | (e1, Except.error s) => (e1, Except.error s)

/-- Replace the in-memory row counts a LoadWorld carries. -/
def withMemRows (w : LoadWorld) (m : String → Nat) : LoadWorld :=
  { fileRows := w.fileRows, putOkFor := w.putOkFor, copyOkFor := w.copyOkFor,
    memRows := m }

/-! Concrete worlds used by counterexamples and witnesses. -/

/-- Oracle for C1: the box-score call for game A raises, B succeeds. -/
def oracleAB : String → Option Frame :=
  fun g => if g = "B" then some [[("PLAYER_ID", "2")]] else none

/-- Oracle for C2 and C3: the call for G1 returns one player row, every
other call raises. -/
def oracleG1 : String → Option Frame :=
  fun g => if g = "G1" then some [[("PLAYER_ID", "1")]] else none

/-- World for C5: the TeamGameLog call succeeds with zero games. -/
def zeroGamesWorld : World :=
  { gamesResult := some [], box := fun _ => none, mkdirOk := true,
    writeGamesOk := true, writeStatsOk := true }

/-- World for C10: one game, one player row, and the games.csv write
raises while the player_stats.csv write succeeds. -/
def writeFailWorld : World :=
  { gamesResult := some [[("Game_ID", "G1")]], box := oracleG1,
    mkdirOk := true, writeGamesOk := false, writeStatsOk := true }

/-- Load world for C7: games.csv exists but holds 0 rows while the
extractor's in-memory games dataset had 3; all statements succeed. -/
def mismatchWorld : LoadWorld :=
  { fileRows := fun f => if f = "games" then some 0 else
      if f = "player_stats" then some 2 else none,
    putOkFor := fun _ => true, copyOkFor := fun _ => true,
    memRows := fun f => if f = "games" then 3 else 2 }

/-- Load world where no csv file exists on disk. -/
def missingWorld : LoadWorld :=
  { fileRows := fun _ => none, putOkFor := fun _ => true,
    copyOkFor := fun _ => true, memRows := fun _ => 0 }

/-- Load world where both files exist and every statement succeeds. -/
def okLoadWorld : LoadWorld :=
  { fileRows := fun f => if f = "games" then some 3 else
      if f = "player_stats" then some 2 else none,
    putOkFor := fun _ => true, copyOkFor := fun _ => true,
    memRows := fun _ => 0 }

/-- Load world for C8: both files exist, the PUT for games raises. -/
def putFailWorld : LoadWorld :=
  { fileRows := fun f => if f = "games" then some 3 else
      if f = "player_stats" then some 2 else none,
    putOkFor := fun f => f ≠ "games", copyOkFor := fun _ => true,
    memRows := fun _ => 0 }

/-! Helper lemmas. -/

/-- A successful association-list lookup returns a member pair. -/
theorem lookup_mem {k y : String} :
    ∀ {m : List (String × String)}, List.lookup k m = some y → (k, y) ∈ m := by
  intro m
  induction m with
  | nil => intro h; cases h
  | cons p t ih =>
    intro h
    obtain ⟨a, b⟩ := p
    simp only [List.lookup] at h
    by_cases hk : k = a
    · subst hk
      simp only [beq_self_eq_true] at h
      cases h
      exact List.mem_cons_self _ _
    · simp only [beq_eq_false_iff_ne.mpr hk] at h
      exact List.mem_cons_of_mem _ (ih h)

/-- Renaming through a map that neither contains c as a key nor as a target
leaves lookups of c unchanged. -/
theorem lookup_renameRow (m : List (String × String)) (c : String)
    (hm : List.lookup c m = none) (hv : ∀ p ∈ m, p.2 ≠ c) (r : Row) :
    List.lookup c (renameRow m r) = List.lookup c r := by
  induction r with
  | nil => rfl
  | cons p t ih =>
    obtain ⟨k, x⟩ := p
    show List.lookup c (((List.lookup k m).getD k, x) :: renameRow m t)
      = List.lookup c ((k, x) :: t)
    by_cases hk : k = c
    · subst hk
      rw [hm]
      simp [List.lookup]
    · have hne : (List.lookup k m).getD k ≠ c := by
        cases hkm : List.lookup k m with
        | none => simpa using hk
        | some y =>
          have := hv (k, y) (lookup_mem hkm)
          simpa using this
      have h1 : (c == (List.lookup k m).getD k) = false :=
        beq_eq_false_iff_ne.mpr fun h => hne h.symm
      have h2 : (c == k) = false :=
        beq_eq_false_iff_ne.mpr fun h => hk h.symm
      simp only [List.lookup, h1, h2]
      exact ih

/-- After overwriting a present column c, looking up c yields the new
value. -/
theorem lookup_map_overwrite (c v : String) :
    ∀ r : Row, r.any (fun p => p.1 = c) = true →
      List.lookup c (r.map (fun p => if p.1 = c then (c, v) else p)) = some v := by
  intro r
  induction r with
  | nil => intro h; cases h
  | cons p t ih =>
    intro h
    obtain ⟨k, x⟩ := p
    by_cases hk : k = c
    · subst hk
      rw [List.map_cons, if_pos (rfl : ((k : String), x).1 = k)]
      simp [List.lookup]
    · have ht : t.any (fun p => p.1 = c) = true := by
        simpa [hk] using h
      have h2 : (c == k) = false :=
        beq_eq_false_iff_ne.mpr fun h => hk h.symm
      simp only [List.map_cons]
      rw [if_neg hk]
      simp only [List.lookup, h2]
      exact ih ht

/-- Appending a fresh column c to a row without c makes lookups of c find
it. -/
theorem lookup_append_fresh (c v : String) :
    ∀ r : Row, r.any (fun p => p.1 = c) = false →
      List.lookup c (r ++ [(c, v)]) = some v := by
  intro r
  induction r with
  | nil => intro _; simp [List.lookup]
  | cons p t ih =>
    intro h
    obtain ⟨k, x⟩ := p
    have hk : k ≠ c := by
      intro hkc
      simp [hkc] at h
    have ht : t.any (fun p => p.1 = c) = false := by
      simpa [hk] using h
    have h2 : (c == k) = false :=
      beq_eq_false_iff_ne.mpr fun h => hk h.symm
    simp only [List.cons_append, List.lookup, h2]
    exact ih ht

/-- Column assignment always makes the assigned value visible. -/
theorem lookup_setCol (c v : String) (r : Row) :
    List.lookup c (setCol c v r) = some v := by
  unfold setCol
  by_cases h : r.any (fun p => p.1 = c) = true
  · rw [if_pos h]
    exact lookup_map_overwrite c v r h
  · rw [if_neg h]
    exact lookup_append_fresh c v r (Bool.eq_false_iff.mpr h)

/-- The frames the fetch loop collects: one tagged frame per id whose
endpoint call succeeds, in input order; independent of index and total. -/
theorem fetchLoop_frames (o : String → Option Frame) (n : Nat) :
    ∀ (gids : List String) (i : Nat),
      (fetchLoop o n i gids).2 = gids.filterMap (fun g => (o g).map (tagFrame g)) := by
  intro gids
  induction gids with
  | nil => intro i; rfl
  | cons g rest ih =>
    intro i
    simp only [fetchLoop]
    cases ho : o g with
    | some df =>
      by_cases hi : i < n - 1 <;>
        simp [ho, hi, List.filterMap_cons, ih (i + 1)]
    | none => simp [ho, List.filterMap_cons, ih (i + 1)]

/-- The fetch loop issues exactly one call event per input id, in input
order. -/
theorem fetchLoop_calls (o : String → Option Frame) (n : Nat) :
    ∀ (gids : List String) (i : Nat),
      (fetchLoop o n i gids).1.filterMap callId = gids := by
  intro gids
  induction gids with
  | nil => intro i; rfl
  | cons g rest ih =>
    intro i
    simp only [fetchLoop]
    cases ho : o g with
    | some df =>
      by_cases hi : i < n - 1 <;>
        simp [ho, hi, List.filterMap_cons, callId, ih (i + 1)]
    | none => simp [ho, List.filterMap_cons, callId, ih (i + 1)]

/-- The fetch loop's trace holds only call and sleep events. -/
theorem fetchLoop_ev (o : String → Option Frame) (n : Nat) :
    ∀ (gids : List String) (i : Nat), ∀ e ∈ (fetchLoop o n i gids).1,
      (∃ g, e = Ev.call g) ∨ ∃ ms, e = Ev.sleep ms := by
  intro gids
  induction gids with
  | nil => intro i e he; cases he
  | cons g rest ih =>
    intro i e he
    simp only [fetchLoop] at he
    cases ho : o g with
    | some df =>
      by_cases hi : i < n - 1
      · simp [ho, hi] at he
        rcases he with he | he | he
        · exact Or.inl ⟨g, he⟩
        · exact Or.inr ⟨600, he⟩
        · exact ih (i + 1) e he
      · simp [ho, hi] at he
        rcases he with he | he
        · exact Or.inl ⟨g, he⟩
        · exact ih (i + 1) e he
    | none =>
      simp [ho] at he
      rcases he with he | he
      · exact Or.inl ⟨g, he⟩
      · exact ih (i + 1) e he

/-- fetch_boxscores returns the loop's trace unchanged. -/
theorem fetch_boxscores_fst (o : String → Option Frame) (gids : List String) :
    (fetch_boxscores o gids).1 = (fetchLoop o gids.length 0 gids).1 := by
  cases h : (fetchLoop o gids.length 0 gids).2 with
  | nil => simp [fetch_boxscores, h]
  | cons f fs => simp [fetch_boxscores, h]

/-- The dataset fetch_boxscores returns: the renamed concatenation of the
tagged per-id frames of the ids whose call succeeded, in input order. -/
theorem fetch_boxscores_snd (o : String → Option Frame) (gids : List String) :
    (fetch_boxscores o gids).2 =
      List.flatten (gids.filterMap fun g =>
        (o g).map fun df => renameFrame childRenameMap (tagFrame g df)) := by
  have h1 : (fetch_boxscores o gids).2
      = renameFrame childRenameMap (List.flatten (fetchLoop o gids.length 0 gids).2) := by
    cases h : (fetchLoop o gids.length 0 gids).2 with
    | nil => simp [fetch_boxscores, h, renameFrame]
    | cons f fs => simp [fetch_boxscores, h]
  rw [h1, fetchLoop_frames o gids.length gids 0]
  simp only [renameFrame, List.map_flatten, List.map_filterMap, Option.map_map,
    Function.comp]
  rfl

/-- Dropping the ids whose call fails does not change the returned
dataset. -/
theorem filterMap_filter_isSome {α β γ : Type} (f : α → Option β) (g : α → β → γ)
    (l : List α) :
    List.filterMap (fun a => (f a).map (g a)) (l.filter fun a => (f a).isSome)
      = List.filterMap (fun a => (f a).map (g a)) l := by
  induction l with
  | nil => rfl
  | cons a t ih =>
    cases hf : f a <;>
      simp [List.filter_cons, List.filterMap_cons, hf, ih]

/-- fetch_games always issues exactly one endpoint call. -/
theorem fetch_games_fst (res : Option Frame) :
    (fetch_games res).1 = [Ev.callGameLog] := by
  cases res <;> rfl

/-! Claim theorems. -/

/-- C1: the claim that two consecutive box-score calls are always separated
by a sleep of at least the minimum interval, including when a per-id call
fails, is false on the code: when the call for game A raises, the
time.sleep inside the try block is skipped and the call for game B is
issued immediately, so the trace holds two adjacent call events with no
sleep between them. -/
theorem rateLimit_skipped_after_failure :
    (fetch_boxscores oracleAB ["A", "B"]).1 = [Ev.call "A", Ev.call "B"] ∧
    callsSpaced (fetch_boxscores oracleAB ["A", "B"]).1 = false := by
  constructor <;> rfl

/-- C2 counterexample: fetch_boxscores returns only the accumulated
dataset; when the call for G2 fails, its return value is exactly the G1
records and coincides with the return value when G2 was never requested,
so no (id, error) failure entry for G2 is returned to the caller. -/
theorem childFailure_not_returned :
    (fetch_boxscores oracleG1 ["G1", "G2"]).2 = (fetch_boxscores oracleG1 ["G1"]).2 ∧
    (fetch_boxscores oracleG1 ["G1", "G2"]).2 = [[("player_id", "1"), ("game_id", "G1")]] := by
  constructor <;> rfl

/-- C2 amended: a per-id failure is isolated — every id in the input is
still called in input order, and the returned dataset is exactly the one
obtained from the successful ids, so records of other ids are neither
removed nor reordered; but failures are only logged, not returned. -/
theorem childFailure_isolated (o : String → Option Frame) (gids : List String) :
    (fetch_boxscores o gids).1.filterMap callId = gids ∧
    (fetch_boxscores o gids).2 =
      (fetch_boxscores o (gids.filter fun g => (o g).isSome)).2 := by
  constructor
  · rw [fetch_boxscores_fst]
    exact fetchLoop_calls o gids.length gids 0
  · rw [fetch_boxscores_snd, fetch_boxscores_snd]
    exact congrArg List.flatten
      (filterMap_filter_isSome o
        (fun gid df => renameFrame childRenameMap (tagFrame gid df)) gids).symm

/-- C3: the assembled player-stats dataset is the concatenation, in input
order, of the renamed tagged per-id batches of the successfully fetched
ids, each batch preserving its upstream row order (tagging and renaming are
row-wise maps), and every row of the batch for id g carries g in its
game_id column. -/
theorem boxscores_concat_in_order (o : String → Option Frame) (gids : List String) :
    (fetch_boxscores o gids).2 =
      List.flatten (gids.filterMap fun g =>
        (o g).map fun df => renameFrame childRenameMap (tagFrame g df)) ∧
    ∀ g df, o g = some df → ∀ r ∈ renameFrame childRenameMap (tagFrame g df),
      List.lookup "game_id" r = some g := by
  refine ⟨fetch_boxscores_snd o gids, ?_⟩
  intro g df _ r hr
  simp only [renameFrame, tagFrame, List.map_map, List.mem_map] at hr
  obtain ⟨r0, _, rfl⟩ := hr
  have hm : List.lookup "game_id" childRenameMap = none := by decide
  have hv : ∀ p ∈ childRenameMap, p.2 ≠ "game_id" := by decide
  show List.lookup "game_id" (renameRow childRenameMap (setCol "game_id" g r0)) = some g
  rw [lookup_renameRow childRenameMap "game_id" hm hv]
  exact lookup_setCol "game_id" g r0

/-- C3 witness: instantiating the theorem at the oracle where G1 returns
one player row shows that row carries game_id G1 after tagging and
renaming. -/
theorem boxscores_concat_in_order_witness :
    List.lookup "game_id"
      (renameRow childRenameMap (setCol "game_id" "G1" [("PLAYER_ID", "1")])) = some "G1" :=
  (boxscores_concat_in_order oracleG1 ["G1"]).2 "G1" [[("PLAYER_ID", "1")]] rfl
    (renameRow childRenameMap (setCol "game_id" "G1" [("PLAYER_ID", "1")])) (by decide)

/-- C4 counterexample: on upstream failure fetch_games returns exactly the
value it returns on upstream success with zero records — an empty dataset,
not an error — so the two outcomes are indistinguishable to the caller. -/
theorem gamesFailure_indistinguishable :
    fetch_games none = fetch_games (some []) := rfl

/-- C4 amended: fetch_games issues exactly one endpoint call (no retry);
on upstream failure it catches the exception and returns an empty dataset,
the same value as a zero-record success, and on success it returns the
renamed raw frame. -/
theorem gamesFetch_single_attempt (res : Option Frame) :
    (fetch_games res).1 = [Ev.callGameLog] ∧
    (res = none → (fetch_games res).2 = []) ∧
    ∀ df, res = some df → (fetch_games res).2 = renameFrame parentRenameMap df := by
  refine ⟨fetch_games_fst res, ?_, ?_⟩
  · intro h
    subst h
    rfl
  · intro df h
    subst h
    rfl

/-- C4 witness: at the failing upstream outcome, the single call is issued
and the empty dataset is returned. -/
theorem gamesFetch_single_attempt_witness :
    (fetch_games none).1 = [Ev.callGameLog] ∧ (fetch_games none).2 = [] :=
  ⟨(gamesFetch_single_attempt none).1, (gamesFetch_single_attempt none).2.1 rfl⟩

/-- C5 counterexample: in the world where the parent fetch succeeds with
zero games, main returns normally (Except.ok, no distinguished
EmptyDatasetError is raised); it merely logs and stops after the single
game-log call. -/
theorem emptyGames_no_error :
    (main zeroGamesWorld).2 = Except.ok () ∧
    (main zeroGamesWorld).1 = [Ev.callGameLog] := by
  constructor <;> rfl

/-- C5 amended: with zero parent rows main returns normally right after the
game-log call — no box-score call, no sleep and no write happens — and
with an empty assembled player-stats dataset main returns normally without
attempting any write; in neither case is an error value produced. -/
theorem emptyDataset_early_return (w : World) :
    ((fetch_games w.gamesResult).2 = [] →
      main w = ([Ev.callGameLog], Except.ok ())) ∧
    ((fetch_boxscores w.box (gameIds (fetch_games w.gamesResult).2)).2 = [] →
      (main w).2 = Except.ok () ∧ ∀ f b, Ev.write f b ∉ (main w).1) := by
  constructor
  · intro hg
    simp only [main]
    rw [if_pos (by simp [List.isEmpty_iff, hg])]
    rw [fetch_games_fst]
  · intro hs
    by_cases hg : (fetch_games w.gamesResult).2 = []
    · simp only [main]
      rw [if_pos (by simp [List.isEmpty_iff, hg])]
      refine ⟨rfl, ?_⟩
      intro f b hmem
      rw [fetch_games_fst] at hmem
      simp at hmem
    · have hmain : main w = ((fetch_games w.gamesResult).1 ++
          (fetch_boxscores w.box (gameIds (fetch_games w.gamesResult).2)).1,
          Except.ok ()) := by
        simp only [main]
        rw [if_neg (by simp [List.isEmpty_iff, hg]),
          if_pos (by simp [List.isEmpty_iff, hs])]
      rw [hmain]
      refine ⟨rfl, ?_⟩
      intro f b hmem
      rw [fetch_games_fst, fetch_boxscores_fst] at hmem
      rcases List.mem_append.mp hmem with h | h
      · simp at h
      · rcases fetchLoop_ev w.box _ _ 0 _ h with ⟨g, hg2⟩ | ⟨ms, hg2⟩ <;> cases hg2

/-- C5 witness: the amended statement evaluated in the zero-games world. -/
theorem emptyDataset_early_return_witness :
    main zeroGamesWorld = ([Ev.callGameLog], Except.ok ()) :=
  (emptyDataset_early_return zeroGamesWorld).1 rfl

/-- C6: the claim that raw columns absent from the rename map are dropped
is false on the code: DataFrame.rename keeps unmapped columns, so the
unmapped parent column W_PCT and the unmapped child column COMMENT both
propagate into the output next to the renamed columns. -/
theorem unmapped_columns_propagated :
    (fetch_games (some [[("Game_ID", "G1"), ("W_PCT", "0.5")]])).2 =
      [[("game_id", "G1"), ("W_PCT", "0.5")]] ∧
    (fetch_boxscores (fun _ => some [[("PLAYER_ID", "1"), ("COMMENT", "DNP")]]) ["G1"]).2 =
      [[("player_id", "1"), ("COMMENT", "DNP"), ("game_id", "G1")]] := by
  constructor <;> rfl

/-- C7 counterexample: in a world where games.csv exists on disk with 0
rows while the dataset the extractor wrote had 3 rows, the loader stages
and copies both files and finishes without raising any integrity error:
it never re-opens the file to compare row counts. -/
theorem rowcount_mismatch_staged :
    mismatchWorld.fileRows "games" = some 0 ∧
    mismatchWorld.memRows "games" = 3 ∧
    loadFiles mismatchWorld =
      ([Ev.put "games", Ev.copyInto "GAMES", Ev.put "player_stats",
        Ev.copyInto "PLAYER_STATS"], Except.ok ()) := by
  refine ⟨rfl, rfl, rfl⟩

/-- C7 amended: before staging, the loader only verifies that the csv file
exists, raising an exception naming the file when it is missing; it
performs no row-count verification — its behaviour is unchanged under any
in-memory row counts — and whenever the games file exists its PUT is
attempted. -/
theorem loader_checks_existence_only (w : LoadWorld) (m : String → Nat) :
    loadFiles (withMemRows w m) = loadFiles w ∧
    (w.fileRows "games" = none →
      loadFiles w = ([], Except.error "Expected CSV file not found: games")) ∧
    ∀ n, w.fileRows "games" = some n → Ev.put "games" ∈ (loadFiles w).1 := by
  refine ⟨rfl, ?_, ?_⟩
  · intro h
    unfold loadFiles processFile
    rw [h]
    rfl
  · intro n h
    have hpf : ∀ t, Ev.put "games" ∈ (processFile w "games" t).1 := by
      intro t
      unfold processFile
      rw [h]
      by_cases hput : w.putOkFor "games" = true <;>
        by_cases hcopy : w.copyOkFor "games" = true <;>
          simp [hput, hcopy]
    unfold loadFiles
    rcases hr : processFile w "games" "GAMES" with ⟨e1, r⟩
    have he1 : Ev.put "games" ∈ e1 := by
      have := hpf "GAMES"
      rw [hr] at this
      exact this
    cases r with
    | ok u => simp [he1]
    | error s => simpa using he1

/-- C7 witness: the amended statement evaluated at concrete load worlds —
altered in-memory counts leave the behaviour unchanged, a missing games
file raises, and an existing games file is staged. -/
theorem loader_checks_existence_only_witness :
    loadFiles (withMemRows mismatchWorld (fun _ => 99)) = loadFiles mismatchWorld ∧
    loadFiles missingWorld = ([], Except.error "Expected CSV file not found: games") ∧
    Ev.put "games" ∈ (loadFiles mismatchWorld).1 :=
  ⟨(loader_checks_existence_only mismatchWorld (fun _ => 99)).1,
   (loader_checks_existence_only missingWorld (fun _ => 0)).2.1 rfl,
   (loader_checks_existence_only mismatchWorld (fun _ => 0)).2.2 0 rfl⟩

/-- C8 counterexample: when the PUT for the games file raises, the task
aborts at once — no PUT for player_stats is ever attempted — so the two
datasets are not loaded independently. -/
theorem gamesFailure_blocks_stats :
    loadFiles putFailWorld =
      ([Ev.put "games"], Except.error "Snowflake error: PUT games") ∧
    Ev.put "player_stats" ∉ (loadFiles putFailWorld).1 := by
  constructor
  · rfl
  · have hval : loadFiles putFailWorld =
        ([Ev.put "games"], Except.error "Snowflake error: PUT games") := rfl
    rw [hval]
    simp

/-- C8 amended: the two datasets are processed sequentially inside one
guarded block: when the games load succeeds, player_stats is attempted and
the task's outcome is the player_stats outcome (so the run fails if either
fails); when the games load raises, the task aborts with that error and
player_stats is never attempted. -/
theorem loads_sequential_dependent (w : LoadWorld) :
    ((processFile w "games" "GAMES").2 = Except.ok () →
      loadFiles w = ((processFile w "games" "GAMES").1 ++
        (processFile w "player_stats" "PLAYER_STATS").1,
        (processFile w "player_stats" "PLAYER_STATS").2)) ∧
    ∀ s, (processFile w "games" "GAMES").2 = Except.error s →
      loadFiles w = ((processFile w "games" "GAMES").1, Except.error s) := by
  rcases hr : processFile w "games" "GAMES" with ⟨e1, r⟩
  cases r with
  | ok u =>
    constructor
    · intro _
      unfold loadFiles
      rw [hr]
    · intro s hs
      simp at hs
  | error s0 =>
    constructor
    · intro hok
      simp at hok
    · intro s hs
      injection hs with hse
      subst hse
      unfold loadFiles
      rw [hr]

/-- C8 witness: the amended statement evaluated at a fully successful load
world and at the world whose games PUT raises. -/
theorem loads_sequential_dependent_witness :
    loadFiles okLoadWorld = ((processFile okLoadWorld "games" "GAMES").1 ++
      (processFile okLoadWorld "player_stats" "PLAYER_STATS").1,
      (processFile okLoadWorld "player_stats" "PLAYER_STATS").2) ∧
    loadFiles putFailWorld =
      ((processFile putFailWorld "games" "GAMES").1,
        Except.error "Snowflake error: PUT games") :=
  ⟨(loads_sequential_dependent okLoadWorld).1 rfl,
   (loads_sequential_dependent putFailWorld).2 "Snowflake error: PUT games" rfl⟩

/-- C9: on the empty game-id list, fetch_boxscores issues no endpoint call,
sleeps never, and returns the empty dataset. -/
theorem boxscores_empty_input (o : String → Option Frame) :
    fetch_boxscores o [] = ([], []) := rfl

/-- C10: in every run that reaches the write step (non-empty games and
player-stats datasets, mkdir succeeded), both csv writes are attempted with
their own outcome flags — in particular a failing games.csv write does not
prevent the player_stats.csv attempt — and main returns normally whatever
the write outcomes are, because each write sits in its own try/except. -/
theorem write_failures_isolated (w : World)
    (hg : (fetch_games w.gamesResult).2 ≠ [])
    (hs : (fetch_boxscores w.box (gameIds (fetch_games w.gamesResult).2)).2 ≠ [])
    (hm : w.mkdirOk = true) :
    (main w).2 = Except.ok () ∧
    Ev.write "games.csv" w.writeGamesOk ∈ (main w).1 ∧
    Ev.write "player_stats.csv" w.writeStatsOk ∈ (main w).1 := by
  have hmain : main w = ((fetch_games w.gamesResult).1 ++
      (fetch_boxscores w.box (gameIds (fetch_games w.gamesResult).2)).1 ++
      [Ev.write "games.csv" w.writeGamesOk, Ev.write "player_stats.csv" w.writeStatsOk],
      Except.ok ()) := by
    simp only [main]
    rw [if_neg (by simp [List.isEmpty_iff, hg]),
      if_neg (by simp [List.isEmpty_iff, hs]), if_pos hm]
  rw [hmain]
  refine ⟨rfl, ?_, ?_⟩ <;> simp

/-- C10 witness: in the world where the games.csv write raises, the
player_stats.csv write is still attempted and main returns normally. -/
theorem write_failures_isolated_witness :
    (main writeFailWorld).2 = Except.ok () ∧
    Ev.write "games.csv" false ∈ (main writeFailWorld).1 ∧
    Ev.write "player_stats.csv" true ∈ (main writeFailWorld).1 :=
  write_failures_isolated writeFailWorld (by decide) (by decide) rfl

end Wolves
